import Mathlib

/-!
Shallow embedding of the clock-offset estimation and latency-decomposition
core of the teleop latency monitor (src/simple_web_monitor.py embedded
JavaScript, with src/web_monitor.py as a near-duplicate).

JavaScript numbers are modelled as rationals (ℚ); `toFixed(1)` followed by
`parseFloat` is modelled by exact decimal rounding (ECMAScript `toFixed`
picks the larger candidate on ties, i.e. rounds half toward +∞, which is
`⌊x*10 + 1/2⌋ / 10`).  Absent/null values are `Option`.
-/

/-- `parseFloat(x.toFixed(1))`: round to one decimal place, ties toward +∞
(ECMAScript `toFixed` semantics on exact decimal arithmetic). -/
def round1 (x : ℚ) : ℚ := (⌊x * 10 + 1 / 2⌋ : ℚ) / 10

/-- The `measurement` object built at the end of `handlePongResponse`
(simple_web_monitor.py lines 1627–1634): `rtt_ms` and `one_way_ms` are always
present, `uplink_ms` / `downlink_ms` may be `null`. -/
structure Measurement where
  rtt_ms : ℚ
  one_way_ms : ℚ
  uplink_ms : Option ℚ
  downlink_ms : Option ℚ
deriving Repr, DecidableEq

/-- Lines 1612–1625 of simple_web_monitor.py: with `t1` present, compute
`uplink_ms = (t1 - t0) * 1000`, `downlink_ms = (t2 - t1) * 1000`, then if
`Math.abs(uplink_ms) > 10000 || Math.abs(downlink_ms) > 10000` overwrite both
with `one_way_ms = rtt_ms / 2`.  With `t1` absent both stay `null`.
Timestamps are in seconds (`Date.now() / 1000`), the split in milliseconds. -/
def decomposeSplit (t0 : ℚ) (t1 : Option ℚ) (t2 : ℚ) : Option ℚ × Option ℚ :=
  let rtt_ms := (t2 - t0) * 1000
  let one_way_ms := rtt_ms / 2
  match t1 with
  | none => (none, none)
  | some t1v =>
    let uplink_ms := (t1v - t0) * 1000
    let downlink_ms := (t2 - t1v) * 1000
    if 10000 < |uplink_ms| ∨ 10000 < |downlink_ms| then
      (some one_way_ms, some one_way_ms)
    else
      (some uplink_ms, some downlink_ms)

/-- `uplink_ms ? parseFloat(uplink_ms.toFixed(1)) : null`: a JavaScript
falsy value (`null` or `0`) is stored as `null`, otherwise the value is
stored rounded to one decimal place. -/
def storeOneWay : Option ℚ → Option ℚ
  | none => none
  | some u => if u = 0 then none else some (round1 u)

/-- The full `handlePongResponse` measurement construction
(simple_web_monitor.py lines 1608–1634) on a matched probe: `rtt = t2 - t0`,
`rtt_ms = rtt * 1000`, `one_way_ms = rtt_ms / 2`, split per `decomposeSplit`,
then the stored object rounds `rtt_ms` and `one_way_ms` to one decimal and
applies the falsy-to-null store to the split. -/
def handlePongMeasurement (t0 : ℚ) (t1 : Option ℚ) (t2 : ℚ) : Measurement :=
  let rtt_ms := (t2 - t0) * 1000
  let one_way_ms := rtt_ms / 2
  let s := decomposeSplit t0 t1 t2
  { rtt_ms := round1 rtt_ms
    one_way_ms := round1 one_way_ms
    uplink_ms := storeOneWay s.1
    downlink_ms := storeOneWay s.2 }

/-- The offset-aware decomposition as the spec words it (§4.3): convert `t1`
(remote clock) into the local domain first, `t1_local = t1 - offset`, then
`uplink = t1_local - t0`, `downlink = t2 - t1_local` (all in seconds here;
multiply by 1000 for milliseconds). -/
def specOffsetAwareSplit (t0 t1 t2 offset : ℚ) : ℚ × ℚ :=
  let t1_local := t1 - offset
  (t1_local - t0, t2 - t1_local)

/-- One clock-sync probe (simple_web_monitor.py lines 1517–1524):
`rtt = t1 - t0` (both local clock), `estimatedServerTimeAtT0 =
serverTime - rtt / 2`, offset sample `= estimatedServerTimeAtT0 - t0`.
All values in milliseconds (`Date.now()`). -/
def clockSyncSample (t0 t1 serverTime : ℚ) : ℚ :=
  let rtt := t1 - t0
  let estimatedServerTimeAtT0 := serverTime - rtt / 2
  estimatedServerTimeAtT0 - t0

/-- End of `synchronizeClocks` (lines 1547–1556): sort the collected offset
samples ascending, take the element at index `Math.floor(length / 2)`;
with zero samples no offset is produced (`clockSyncComplete = false`). -/
def syncOffset (samples : List ℚ) : Option ℚ :=
  if samples = [] then none
  else some ((samples.insertionSort (· ≤ ·)).getD (samples.length / 2) 0)

/-- The `clockSyncComplete` flag set at the end of `synchronizeClocks`:
`true` iff at least one sample was collected. -/
def syncComplete (samples : List ℚ) : Bool := !samples.isEmpty

/-- The median as the spec words it (§4.2 step 4: "the median (not mean) of
offset samples"): middle element of the sorted samples for odd length,
mean of the two middle elements for even length. -/
def specMedian (samples : List ℚ) : ℚ :=
  let s := samples.insertionSort (· ≤ ·)
  if samples.length % 2 = 1 then s.getD (samples.length / 2) 0
  else (s.getD (samples.length / 2 - 1) 0 + s.getD (samples.length / 2) 0) / 2

/-- The pending-probe map `pendingPings` (id → t0), modelled as an
association list with unique keys (ids are fresh per `sendPing`). -/
abbrev PendingPings := List (String × ℚ)

/-- JavaScript property access `pendingPings[pingId]`. -/
def findPending (pending : PendingPings) (pingId : String) : Option ℚ :=
  match pending with
  | [] => none
  | (k, v) :: rest => if k = pingId then some v else findPending rest pingId

/-- JavaScript `delete pendingPings[pingId]`: remove the key. -/
def erasePending (pending : PendingPings) (pingId : String) : PendingPings :=
  match pending with
  | [] => []
  | (k, v) :: rest =>
    if k = pingId then erasePending rest pingId
    else (k, v) :: erasePending rest pingId

/-- The stateful part of `handlePongResponse` (lines 1601–1605):
`if (!pendingPings[pingId]) return;` — a missing entry (or a JavaScript-falsy
stored `t0`, i.e. `0`) means the pong is ignored and the map is untouched;
otherwise the entry is deleted and a measurement is produced. -/
def handlePongState (pending : PendingPings) (pingId : String) (t1 : Option ℚ)
    (t2 : ℚ) : PendingPings × Option Measurement :=
  match findPending pending pingId with
  | none => (pending, none)
  | some t0 =>
    if t0 = 0 then (pending, none)
    else (erasePending pending pingId, some (handlePongMeasurement t0 t1 t2))

/-- One `record` into a per-target window (simple_web_monitor.py lines
2349–2352 / web_monitor.py lines 422–426): `push(data)` then
`if (length > 50) shift()`. -/
def recordMeasurement (w : List Measurement) (m : Measurement) :
    List Measurement :=
  let w2 := w ++ [m]
  if 50 < w2.length then w2.drop 1 else w2

/-! ## Helper lemmas -/

theorem findPending_erasePending (l : PendingPings) (k : String) :
    findPending (erasePending l k) k = none := by
  induction l with
  | nil => rfl
  | cons a rest ih =>
    obtain ⟨k2, v⟩ := a
    by_cases h : k2 = k
    · simp [erasePending, h, ih]
    · simp [erasePending, findPending, h, ih]

theorem foldl_record_from (ms : List Measurement) (w : List Measurement)
    (h : w.length + ms.length ≤ 50) :
    List.foldl recordMeasurement w ms = w ++ ms := by
  induction ms generalizing w with
  | nil => simp
  | cons m ms ih =>
    simp only [List.length_cons] at h
    have hstep : recordMeasurement w m = w ++ [m] := by
      unfold recordMeasurement
      rw [if_neg (by simp; omega)]
    rw [List.foldl_cons, hstep, ih (w ++ [m]) (by simp; omega)]
    simp

theorem foldl_record_51 (ms : List Measurement) (h : ms.length = 51) :
    List.foldl recordMeasurement [] ms = ms.drop 1 := by
  rcases List.eq_nil_or_concat ms with h0 | ⟨l, a, rfl⟩
  · subst h0; simp at h
  · rw [List.concat_eq_append] at h ⊢
    have hl : l.length = 50 := by simp at h; omega
    rw [List.foldl_append, foldl_record_from l [] (by simp [hl])]
    simp only [List.nil_append, List.foldl_cons, List.foldl_nil]
    unfold recordMeasurement
    rw [if_pos (by simp [hl])]

theorem record_keep (w : List Measurement) (m : Measurement)
    (h : w.length < 50) : recordMeasurement w m = w ++ [m] := by
  unfold recordMeasurement
  rw [if_neg (by simp; omega)]

theorem record_evict (w : List Measurement) (m : Measurement)
    (h : w.length = 50) : recordMeasurement w m = w.drop 1 ++ [m] := by
  unfold recordMeasurement
  rw [if_pos (by simp [h])]
  rcases w with _ | ⟨x, w2⟩
  · simp at h
  · simp

/-! ## Claim theorems -/

/-- C1: the claim says the one-way split is offset-aware (`t1_local =
t1 - offset`, `uplink = t1_local - t0`, `downlink = t2 - t1_local`), and the
spec standardizes on that formula.  The code's `handlePongResponse` never
uses the synchronized `clockOffset`: at `t0 = 100 s`, `t1 = 100.505 s`
(remote clock ahead by `offset = 500 ms = 1/2 s`), `t2 = 100.010 s`, the code
yields `uplink = 505 ms`, `downlink = -495 ms` (no fallback, both within the
10000 ms bound), while the offset-aware split of the spec yields
`uplink = downlink = 5 ms`. -/
theorem decompose_ignores_clock_offset :
    decomposeSplit 100 (some (100505 / 1000)) (10001 / 100)
        = (some 505, some (-495)) ∧
    specOffsetAwareSplit 100 (100505 / 1000) (10001 / 100) (1 / 2)
        = (5 / 1000, 5 / 1000) ∧
    (some ((specOffsetAwareSplit 100 (100505 / 1000) (10001 / 100)
        (1 / 2)).1 * 1000),
     some ((specOffsetAwareSplit 100 (100505 / 1000) (10001 / 100)
        (1 / 2)).2 * 1000))
        ≠ decomposeSplit 100 (some (100505 / 1000)) (10001 / 100) := by
  have h1 : decomposeSplit 100 (some (100505 / 1000)) (10001 / 100)
      = (some 505, some (-495)) := by
    norm_num [decomposeSplit, abs]
  have h2 : specOffsetAwareSplit 100 (100505 / 1000) (10001 / 100) (1 / 2)
      = (5 / 1000, 5 / 1000) := by
    norm_num [specOffsetAwareSplit]
  refine ⟨h1, h2, ?_⟩
  rw [h1, h2]
  norm_num

/-- C2: whenever the raw split exceeds the 10000 ms sanity bound in absolute
value (on either side), both `uplink_ms` and `downlink_ms` are overwritten
with `one_way_ms = rtt_ms / 2`, and re-applying the decomposition to the same
fallback-triggering inputs yields the same fallback result. -/
theorem decompose_fallback_overwrites (t0 t1 t2 : ℚ)
    (h : 10000 < |(t1 - t0) * 1000| ∨ 10000 < |(t2 - t1) * 1000|) :
    decomposeSplit t0 (some t1) t2
        = (some ((t2 - t0) * 1000 / 2), some ((t2 - t0) * 1000 / 2)) ∧
    decomposeSplit t0 (some t1) t2 = decomposeSplit t0 (some t1) t2 := by
  refine ⟨?_, rfl⟩
  simp only [decomposeSplit]
  rw [if_pos h]

/-- Witness for C2 at `t0 = 0`, `t1 = 20`, `t2 = 1` (seconds): the raw
uplink is 20000 ms, so both sides fall back to `rtt/2 = 500` ms. -/
theorem decompose_fallback_overwrites_witness :
    decomposeSplit 0 (some 20) 1 = (some 500, some 500) := by
  have h := (decompose_fallback_overwrites 0 20 1 (Or.inl (by norm_num [abs]))).1
  norm_num at h
  exact h

/-- C3 counterexample: for the even-length batch `[0, 10]` the code selects
the sorted element at index `⌊2/2⌋ = 1`, i.e. `10`, while the median of
`[0, 10]` is `5` — so the final offset is not always the median. -/
theorem syncOffset_even_batch_not_median :
    syncOffset [0, 10] = some 10 ∧ specMedian [0, 10] = 5 ∧
    syncOffset [0, 10] ≠ some (specMedian [0, 10]) := by
  have h1 : syncOffset [0, 10] = some 10 := by
    rw [syncOffset, if_neg (by simp)]
    simp only [List.insertionSort, List.orderedInsert]
    norm_num
  have h2 : specMedian [0, 10] = 5 := by
    simp only [specMedian, List.insertionSort, List.orderedInsert]
    norm_num
  refine ⟨h1, h2, ?_⟩
  rw [h1, h2]
  simp

/-- C3 (amended): for every non-empty batch with an odd number of samples
the final clock offset is exactly the median of the samples (for even counts
the code takes the upper of the two middle values instead). -/
theorem syncOffset_selects_median_odd (l : List ℚ) (h : l ≠ [])
    (hodd : l.length % 2 = 1) : syncOffset l = some (specMedian l) := by
  rw [syncOffset, if_neg h, specMedian]
  simp only [hodd, if_pos]

/-- Witness for C3: the spec's example batch `[10, 12, 1000, 11, 9]` has odd
length and its estimated offset is the median `11`. -/
theorem syncOffset_selects_median_odd_witness :
    syncOffset [10, 12, 1000, 11, 9] = some 11 := by
  have h := syncOffset_selects_median_odd [10, 12, 1000, 11, 9]
    (by simp) (by simp)
  rw [h]
  simp only [specMedian, List.insertionSort, List.orderedInsert]
  norm_num

/-- C4: the offset sample contributed by a completed clock-sync probe equals
`(server_time - rtt/2) - t0` with `rtt = t1_local - t0`. -/
theorem clockSyncSample_formula (t0 t1_local server_time : ℚ) :
    clockSyncSample t0 t1_local server_time
      = (server_time - (t1_local - t0) / 2) - t0 := rfl

/-- C5 counterexample: with `t0 = 0 ≤ t2 = 0.00123 s` the exact RTT is
`1.23 ms`, but the stored Measurement's `rtt_ms` is `1.2` — the value is
rounded to one decimal place when the `measurement` object is built, not
only at display. -/
theorem measurement_rtt_rounded_at_store :
    (0 : ℚ) ≤ 123 / 100000 ∧
    (handlePongMeasurement 0 none (123 / 100000)).rtt_ms
      ≠ (123 / 100000 - 0) * 1000 := by
  constructor
  · norm_num
  · norm_num [handlePongMeasurement, decomposeSplit, round1, storeOneWay]

/-- C5 (amended): the internal RTT is computed exactly as `t2 - t0` (in ms,
`(t2 - t0) * 1000`), but the stored Measurement holds that value rounded to
one decimal place; the stored value coincides with the exact one exactly when
the exact millisecond value has at most one decimal place. -/
theorem measurement_rtt_exact_then_rounded (t0 t2 : ℚ) (t1 : Option ℚ) :
    (handlePongMeasurement t0 t1 t2).rtt_ms = round1 ((t2 - t0) * 1000) ∧
    (∀ k : ℤ, (t2 - t0) * 1000 = (k : ℚ) / 10 →
      (handlePongMeasurement t0 t1 t2).rtt_ms = (t2 - t0) * 1000) := by
  have hfield : (handlePongMeasurement t0 t1 t2).rtt_ms
      = round1 ((t2 - t0) * 1000) := by
    cases t1 <;> rfl
  refine ⟨hfield, ?_⟩
  intro k hk
  rw [hfield, hk, round1]
  rw [div_mul_cancel₀ _ (by norm_num : (10:ℚ) ≠ 0)]
  rw [add_comm, Int.floor_add_int]
  norm_num

/-- Witness for C5 (amended) at `t0 = 0`, `t2 = 1 ms`: the exact RTT of
`1 ms` has one decimal place, so the stored value equals it. -/
theorem measurement_rtt_exact_then_rounded_witness :
    (handlePongMeasurement 0 none (1 / 1000)).rtt_ms = (1 / 1000 - 0) * 1000 :=
  (measurement_rtt_exact_then_rounded 0 (1 / 1000) none).2 10 (by norm_num)

/-- C6: recording preserves the 50-entry bound; a full window evicts the
oldest entry and appends the new one at the end; a non-full window just
appends; and folding 51 insertions into an empty window leaves exactly the
most recent 50 in insertion order. -/
theorem record_window_invariant (w : List Measurement) (m : Measurement)
    (h : w.length ≤ 50) :
    (recordMeasurement w m).length ≤ 50 ∧
    (w.length = 50 → recordMeasurement w m = w.drop 1 ++ [m]) ∧
    (w.length < 50 → recordMeasurement w m = w ++ [m]) ∧
    (∀ ms : List Measurement, ms.length = 51 →
      List.foldl recordMeasurement [] ms = ms.drop 1) := by
  refine ⟨?_, record_evict w m, record_keep w m, foldl_record_51⟩
  unfold recordMeasurement
  by_cases h2 : 50 < (w ++ [m]).length
  · rw [if_pos h2]; simp; omega
  · rw [if_neg h2]; simp at h2 ⊢; omega

/-- Witness for C6: recording into a full window of 50 placeholder
measurements keeps the length at 50. -/
theorem record_window_invariant_witness :
    (recordMeasurement
      (List.replicate 50 ⟨0, 0, none, none⟩) ⟨0, 0, none, none⟩).length ≤ 50 :=
  (record_window_invariant _ _ (by simp)).1

/-- C7: with `t1` absent the decomposed measurement has `uplink_ms` and
`downlink_ms` both `null`, while `rtt_ms` and `one_way_ms` are still
reported (rounded to one decimal for the stored object). -/
theorem decompose_no_t1_nulls (t0 t2 : ℚ) :
    handlePongMeasurement t0 none t2
      = { rtt_ms := round1 ((t2 - t0) * 1000),
          one_way_ms := round1 ((t2 - t0) * 1000 / 2),
          uplink_ms := none, downlink_ms := none } := rfl

/-- C8: a synchronization run with zero collected samples produces no offset
(`syncOffset [] = none`) and reports failure (`clockSyncComplete = false`);
the offset estimate is present exactly when the run is reported complete (the
model is a total function — no exception escapes); and RTT-only measurements
(`t1` absent) are still produced afterwards. -/
theorem sync_zero_samples_soft_failure :
    syncOffset [] = none ∧ syncComplete [] = false ∧
    (∀ samples : List ℚ, (syncOffset samples).isSome = syncComplete samples) ∧
    (∀ t0 t2 : ℚ,
      (handlePongMeasurement t0 none t2).rtt_ms = round1 ((t2 - t0) * 1000) ∧
      (handlePongMeasurement t0 none t2).one_way_ms
        = round1 ((t2 - t0) * 1000 / 2)) := by
  refine ⟨rfl, rfl, ?_, fun t0 t2 => ⟨rfl, rfl⟩⟩
  intro samples
  cases samples <;> simp [syncOffset, syncComplete]

/-- C9: a pong whose id has no pending entry is discarded silently (state
unchanged, no measurement); a matched id (with its stored nonzero send time)
yields a measurement, is removed from the pending map, and a duplicate echo
with the same id is then ignored with the state unchanged. -/
theorem handlePong_id_discipline (pending : PendingPings) (pingId : String)
    (t1 : Option ℚ) (t2 t0 : ℚ) :
    (findPending pending pingId = none →
      handlePongState pending pingId t1 t2 = (pending, none)) ∧
    (findPending pending pingId = some t0 → t0 ≠ 0 →
      (handlePongState pending pingId t1 t2).2
          = some (handlePongMeasurement t0 t1 t2) ∧
      findPending (handlePongState pending pingId t1 t2).1 pingId = none ∧
      handlePongState (handlePongState pending pingId t1 t2).1 pingId t1 t2
          = ((handlePongState pending pingId t1 t2).1, none)) := by
  constructor
  · intro h
    unfold handlePongState
    rw [h]
  · intro h h0
    have hm : handlePongState pending pingId t1 t2
        = (erasePending pending pingId,
           some (handlePongMeasurement t0 t1 t2)) := by
      simp only [handlePongState, h, if_neg h0]
    rw [hm]
    refine ⟨rfl, findPending_erasePending pending pingId, ?_⟩
    unfold handlePongState
    rw [findPending_erasePending pending pingId]

/-- Witness for C9: an unknown id `"b"` leaves the map `[("a", 5)]`
untouched, and after matching id `"a"` it is no longer pending. -/
theorem handlePong_id_discipline_witness :
    handlePongState [("a", (5 : ℚ))] "b" none 7 = ([("a", 5)], none) ∧
    findPending (handlePongState [("a", (5 : ℚ))] "a" none 7).1 "a" = none :=
  ⟨(handlePong_id_discipline [("a", 5)] "b" none 7 0).1 rfl,
   ((handlePong_id_discipline [("a", 5)] "a" none 7 5).2 rfl
      (by norm_num)).2.1⟩

/-- C10 counterexample: at `t0 = t1 = 0`, `t2 = 21 s` the computed uplink is
exactly `0 ms`, yet the anomaly fallback fires (`|downlink| = 21000 >
10000`), overwriting both sides with `one_way = 10500 ms`, so the recorded
uplink is `some 10500`, not `null`. -/
theorem zero_uplink_masked_by_fallback :
    (handlePongMeasurement 0 (some 0) 21).uplink_ms = some 10500 ∧
    (handlePongMeasurement 0 (some 0) 21).uplink_ms ≠ none := by
  have h : (handlePongMeasurement 0 (some 0) 21).uplink_ms = some 10500 := by
    norm_num [handlePongMeasurement, decomposeSplit, storeOneWay, round1, abs]
  exact ⟨h, by rw [h]; simp⟩

/-- C10 (amended): when the anomaly fallback does not fire (the other side
of the split is within the 10000 ms bound), a computed one-way value of
exactly `0 ms` (`t1 = t0` for uplink, `t2 = t1` for downlink) is stored as
`null` — indistinguishable at the public interface from `t1` being absent. -/
theorem zero_one_way_stored_null (t0 t2 : ℚ)
    (h : |(t2 - t0) * 1000| ≤ 10000) :
    (handlePongMeasurement t0 (some t0) t2).uplink_ms = none ∧
    (handlePongMeasurement t0 (some t2) t2).downlink_ms = none ∧
    (handlePongMeasurement t0 none t2).uplink_ms = none ∧
    (handlePongMeasurement t0 none t2).downlink_ms = none := by
  have hno : ¬(10000 < |((t2:ℚ) - t0) * 1000|) := not_lt.mpr h
  have hz : ((t0:ℚ) - t0) * 1000 = 0 := by ring
  have hz2 : ((t2:ℚ) - t2) * 1000 = 0 := by ring
  refine ⟨?_, ?_, rfl, rfl⟩
  · show storeOneWay (decomposeSplit t0 (some t0) t2).1 = none
    simp only [decomposeSplit]
    rw [if_neg (by rw [not_or]; exact ⟨by rw [hz]; norm_num, hno⟩)]
    show storeOneWay (some ((t0 - t0) * 1000)) = none
    simp [storeOneWay, hz]
  · show storeOneWay (decomposeSplit t0 (some t2) t2).2 = none
    simp only [decomposeSplit]
    rw [if_neg (by rw [not_or]; exact ⟨hno, by rw [hz2]; norm_num⟩)]
    show storeOneWay (some ((t2 - t2) * 1000)) = none
    simp [storeOneWay, hz2]

/-- Witness for C10 (amended) at `t0 = t1 = 0`, `t2 = 1 s` (RTT 1000 ms,
within the bound): the zero uplink is stored as `null`. -/
theorem zero_one_way_stored_null_witness :
    (handlePongMeasurement 0 (some 0) 1).uplink_ms = none :=
  (zero_one_way_stored_null 0 1 (by norm_num [abs])).1
